import Mathlib

/-!
Verification of the Roast Session Recorder of the RoastingGraphReact
repository, against its natural-language specification.

The embedding follows the source:
* `src/RoastingGrapher/src/utils/dtrCalculations.ts` — `calculateDTR`,
  `getDTRColor`, `interpolateColor`;
* the RoastingScreen component (current variant): initial state, the
  localStorage load/save effects (serialize/restore), the 100ms timer
  callback (per-tick sampling with the `elapsed > lastTime` guard and the
  3600-point cap), `handleStart`, `handleFirstCrack`,
  `handleIncreaseTemp`, `handleDecreaseTemp`,
  `handleBackWithConfirmation`, and the stage-dispatch button onClick;
* the RoastingScreen component (older variant): `handleIncreaseTemp` /
  `handleDecreaseTemp`, which append to the series immediately while the
  timer is running.

JavaScript numbers are modelled as rationals (ℚ), elapsed seconds and
wall-clock milliseconds as integers (ℤ).  `Math.round` is modelled as
`jsRound` (round half toward +∞), `Math.max` as `max`, `Math.floor` of a
real quotient as `Int.fdiv`, and `Array.prototype.slice(-n)` as
`jsSliceLast`.  Colors are modelled as their RGB channel triples: the
source parses the hex stops with `parseInt(_, 16)` and the only consumer
is a (case-insensitive) CSS color, so the channel values carry all the
information in the hex strings.
-/

namespace Roasting

/-! ## Derived metrics: `dtrCalculations.ts` -/

/-- `calculateDTR` from `dtrCalculations.ts`:
`if (firstCrackTime === null || totalTime === 0) return 0;`
then `(developmentTime / totalTime) * 100` with
`developmentTime = totalTime - firstCrackTime`. -/
def calculateDTR (firstCrackTime : Option ℚ) (totalTime : ℚ) : ℚ :=
  match firstCrackTime with
  | none => 0
  | some fc => if totalTime = 0 then 0 else (totalTime - fc) / totalTime * 100

/-- An RGB color: the three channel values.  The source manipulates hex
strings such as `'#DAA06D'` but only ever consumes them channel-wise. -/
structure Color where
  r : ℤ
  g : ℤ
  b : ℤ
  deriving DecidableEq, Repr

/-- JavaScript `Math.round`: round half toward positive infinity. -/
def jsRound (q : ℚ) : ℤ := ⌊q + 1 / 2⌋

/-- `interpolateColor` from `dtrCalculations.ts`: channel-wise
`Math.round(c1 + (c2 - c1) * ratio)`. -/
def interpolateColor (c1 c2 : Color) (t : ℚ) : Color :=
  { r := jsRound (c1.r + (c2.r - c1.r) * t)
    g := jsRound (c1.g + (c2.g - c1.g) * t)
    b := jsRound (c1.b + (c2.b - c1.b) * t) }

/-- The tan stop `'#DAA06D'`: channels DA, A0, 6D. -/
def tanStop : Color := { r := 0xDA, g := 0xA0, b := 0x6D }

/-- The medium-brown stop `'#7B3F00'`: channels 7B, 3F, 00. -/
def brownStop : Color := { r := 0x7B, g := 0x3F, b := 0x00 }

/-- The black stop `'#000000'`. -/
def blackStop : Color := { r := 0, g := 0, b := 0 }

/-- `getDTRColor` from `dtrCalculations.ts`:
`if (dtr === 0) return '#DAA06D';`
`if (dtr <= 30)` interpolate tan → brown at `dtr / 30`;
otherwise interpolate brown → black at `(dtr - 30) / 70`. -/
def getDTRColor (dtr : ℚ) : Color :=
  if dtr = 0 then tanStop
  else if dtr ≤ 30 then interpolateColor tanStop brownStop (dtr / 30)
  else interpolateColor brownStop blackStop ((dtr - 30) / 70)

/-! ## The Roast Session Recorder (RoastingScreen component state) -/

/-- The temperature unit prop `'C' | 'F'`. -/
inductive TempUnit
  | C
  | F
  deriving DecidableEq, Repr

/-- The per-click temperature step: `unit === 'C' ? 1 : 1.8`. -/
def tempStep : TempUnit → ℚ
  | TempUnit.C => 1
  | TempUnit.F => 9 / 5

/-- `TemperatureDataPoint`: `{ time: number; temperature: number }`. -/
structure TemperatureDataPoint where
  time : ℤ
  temperature : ℚ
  deriving DecidableEq, Repr

/-- `roastStage`: `'ready' | 'started' | 'firstCrack' | 'ended'`. -/
inductive RoastStage
  | ready
  | started
  | firstCrack
  | ended
  deriving DecidableEq, Repr

/-- The mutable state of the RoastingScreen component (current variant):
the `useState` hooks `seconds`, `isRunning`, `startTime`,
`firstCrackTime`, `roastStage`, `temperatureData`, `currentTemp`.
`beanName`, `chargeTemp` and `unit` are immutable props and appear as
parameters of the operations that read them. -/
structure RecorderState where
  seconds : ℤ
  isRunning : Bool
  startTime : Option ℤ
  firstCrackTime : Option ℤ
  roastStage : RoastStage
  temperatureData : List TemperatureDataPoint
  currentTemp : ℚ
  deriving DecidableEq, Repr

/-- The component's initial `useState` values: series seeded with
`{ time: 0, temperature: chargeTemp }`, stage `'ready'`, timer off. -/
def initState (chargeTemp : ℚ) : RecorderState :=
  { seconds := 0
    isRunning := false
    startTime := none
    firstCrackTime := none
    roastStage := RoastStage.ready
    temperatureData := [{ time := 0, temperature := chargeTemp }]
    currentTemp := chargeTemp }

/-- The series capacity: `3600` points (one hour at one per second). -/
def seriesCap : ℕ := 3600

/-- JavaScript `arr.slice(-n)` for `n > 0`: the last `n` elements
(the whole array when it is shorter than `n`). -/
def jsSliceLast (n : ℕ) (l : List TemperatureDataPoint) : List TemperatureDataPoint :=
  l.drop (l.length - n)

/-- The capped append used by every series update:
`newData = [...prev, pt]; newData.length > 3600 ? newData.slice(-3600) : newData`. -/
def appendCapped (prev : List TemperatureDataPoint) (pt : TemperatureDataPoint) :
    List TemperatureDataPoint :=
  if seriesCap < (prev ++ [pt]).length then jsSliceLast seriesCap (prev ++ [pt])
  else prev ++ [pt]

/-- `prev.length > 0 ? prev[prev.length - 1].time : -1`. -/
def lastTime (prev : List TemperatureDataPoint) : ℤ :=
  match prev.getLast? with
  | some p => p.time
  | none => -1

/-- The series update inside the timer callback (current variant):
append `(elapsed, currentTemp)` only when `elapsed > lastTime`
(prevents duplicate-elapsed points from sub-second ticks), then cap. -/
def tickSeries (elapsed : ℤ) (temp : ℚ) (prev : List TemperatureDataPoint) :
    List TemperatureDataPoint :=
  if lastTime prev < elapsed then appendCapped prev { time := elapsed, temperature := temp }
  else prev

/-- One firing of the 100ms timer callback (current variant), active only
when `isRunning && startTime !== null`:
`elapsed = Math.floor((Date.now() - startTime) / 1000)`, `setSeconds(elapsed)`,
and the guarded series append. -/
def tick (now : ℤ) (s : RecorderState) : RecorderState :=
  match s.startTime with
  | some st =>
    if s.isRunning then
      let elapsed := Int.fdiv (now - st) 1000
      { s with
        seconds := elapsed
        temperatureData := tickSeries elapsed s.currentTemp s.temperatureData }
    else s
  | none => s

/-- `handleStart` (current variant): guarded by
`!isRunning && roastStage === 'ready'`; sets
`startTime = Date.now() - seconds * 1000`, starts the timer, stage `'started'`. -/
def handleStart (now : ℤ) (s : RecorderState) : RecorderState :=
  if s.isRunning = false ∧ s.roastStage = RoastStage.ready then
    { s with
      startTime := some (now - s.seconds * 1000)
      isRunning := true
      roastStage := RoastStage.started }
  else s

/-- `handleFirstCrack`: guarded by `roastStage === 'started'`; records
`firstCrackTime = seconds` and moves to stage `'firstCrack'`. -/
def handleFirstCrack (s : RecorderState) : RecorderState :=
  if s.roastStage = RoastStage.started then
    { s with
      firstCrackTime := some s.seconds
      roastStage := RoastStage.firstCrack }
  else s

/-- `handleIncreaseTemp` (current variant): `currentTemp += step`;
does not touch the series. -/
def handleIncreaseTemp (unit : TempUnit) (s : RecorderState) : RecorderState :=
  { s with currentTemp := s.currentTemp + tempStep unit }

/-- `handleDecreaseTemp` (current variant):
`currentTemp = Math.max(0, currentTemp - step)`; does not touch the series. -/
def handleDecreaseTemp (unit : TempUnit) (s : RecorderState) : RecorderState :=
  { s with currentTemp := max 0 (s.currentTemp - tempStep unit) }

/-- The finalized summary handed to `onBack`:
`{ temperatureData, totalTime: seconds, firstCrackTime }`. -/
structure RoastSummary where
  temperatureData : List TemperatureDataPoint
  totalTime : ℤ
  firstCrackTime : Option ℤ
  deriving DecidableEq, Repr

/-- `handleBackWithConfirmation` (the end operation): unguarded; stops the
timer, sets stage `'ended'`, clears the saved blob, and hands the summary
to the parent. -/
def handleBackWithConfirmation (s : RecorderState) : RecorderState × RoastSummary :=
  ({ s with isRunning := false, roastStage := RoastStage.ended },
   { temperatureData := s.temperatureData
     totalTime := s.seconds
     firstCrackTime := s.firstCrackTime })

/-- The stage-dispatch button `onClick`: `ready ⇒ handleStart`,
`started ⇒ handleFirstCrack`, `firstCrack ⇒ handleBackWithConfirmation`,
`ended ⇒` nothing. -/
def stageButtonClick (now : ℤ) (s : RecorderState) : RecorderState × Option RoastSummary :=
  match s.roastStage with
  | RoastStage.ready => (handleStart now s, none)
  | RoastStage.started => (handleFirstCrack s, none)
  | RoastStage.firstCrack =>
    let p := handleBackWithConfirmation s
    (p.1, some p.2)
  | RoastStage.ended => (s, none)

/-! ## Persistence: the localStorage load/save effects -/

/-- `SessionState`, the persisted blob.  The save effect always writes
`isRunning: false` and `startTime: null` ("Never save running state"). -/
structure SessionState where
  beanName : String
  chargeTemp : ℚ
  unit : TempUnit
  temperatureData : List TemperatureDataPoint
  currentTemp : ℚ
  seconds : ℤ
  isRunning : Bool
  startTime : Option ℤ
  firstCrackTime : Option ℤ
  roastStage : RoastStage
  deriving DecidableEq, Repr

/-- The save-to-localStorage effect: the blob written for state `s`. -/
def serializeSession (beanName : String) (chargeTemp : ℚ) (unit : TempUnit)
    (s : RecorderState) : SessionState :=
  { beanName := beanName
    chargeTemp := chargeTemp
    unit := unit
    temperatureData := s.temperatureData
    currentTemp := s.currentTemp
    seconds := s.seconds
    isRunning := false
    startTime := none
    firstCrackTime := s.firstCrackTime
    roastStage := s.roastStage }

/-- The restore branch of the mount effect: set `temperatureData`,
`currentTemp`, `seconds`, `firstCrackTime`, `roastStage` from the blob;
`setIsRunning(false)` and `setStartTime(null)` ("Don't automatically
resume timer"). -/
def restoreSession (blob : SessionState) (s : RecorderState) : RecorderState :=
  { s with
    temperatureData := blob.temperatureData
    currentTemp := blob.currentTemp
    seconds := blob.seconds
    firstCrackTime := blob.firstCrackTime
    roastStage := blob.roastStage
    isRunning := false
    startTime := none }

/-- The mount effect: restore when a saved blob exists, otherwise
auto-start (`setStartTime(Date.now()); setIsRunning(true);
setRoastStage('started')`). -/
def mountLoad (saved : Option SessionState) (now : ℤ) (s : RecorderState) : RecorderState :=
  match saved with
  | some blob => restoreSession blob s
  | none =>
    { s with
      startTime := some now
      isRunning := true
      roastStage := RoastStage.started }

/-! ## Older component variant: manual changes append immediately -/

/-- `handleIncreaseTemp` of the older RoastingScreen variant: bump
`currentTemp` and, when the timer is running, immediately append
`(secondsNow, newTemp)` to the series (no duplicate-elapsed guard),
then cap.  Returns the new `currentTemp` and the new series. -/
def handleIncreaseTempOld (unit : TempUnit) (isRunning : Bool) (secondsNow : ℤ)
    (currentTemp : ℚ) (data : List TemperatureDataPoint) :
    ℚ × List TemperatureDataPoint :=
  let newTemp := currentTemp + tempStep unit
  (newTemp,
   if isRunning then appendCapped data { time := secondsNow, temperature := newTemp }
   else data)

/-- `handleDecreaseTemp` of the older RoastingScreen variant:
`newTemp = Math.max(0, currentTemp - step)`, same immediate append. -/
def handleDecreaseTempOld (unit : TempUnit) (isRunning : Bool) (secondsNow : ℤ)
    (currentTemp : ℚ) (data : List TemperatureDataPoint) :
    ℚ × List TemperatureDataPoint :=
  let newTemp := max 0 (currentTemp - tempStep unit)
  (newTemp,
   if isRunning then appendCapped data { time := secondsNow, temperature := newTemp }
   else data)

/-! ## Reachable recorder states -/

/-- States the current-variant recorder can reach: a fresh mount
(construction followed by the mount effect, with or without a saved blob
that was itself serialized from a reachable state), closed under the
timer callback and every handler. -/
inductive Reachable : RecorderState → Prop
  | freshMount (chargeTemp : ℚ) (now : ℤ) :
      Reachable (mountLoad none now (initState chargeTemp))
  | restoredMount (chargeTemp : ℚ) (now : ℤ) (bn : String) (ct : ℚ) (u : TempUnit)
      (src : RecorderState) :
      Reachable src →
      Reachable (mountLoad (some (serializeSession bn ct u src)) now (initState chargeTemp))
  | tick (now : ℤ) (s : RecorderState) : Reachable s → Reachable (tick now s)
  | start (now : ℤ) (s : RecorderState) : Reachable s → Reachable (handleStart now s)
  | firstCrack (s : RecorderState) : Reachable s → Reachable (handleFirstCrack s)
  | increase (u : TempUnit) (s : RecorderState) :
      Reachable s → Reachable (handleIncreaseTemp u s)
  | decrease (u : TempUnit) (s : RecorderState) :
      Reachable s → Reachable (handleDecreaseTemp u s)
  | back (s : RecorderState) : Reachable s → Reachable (handleBackWithConfirmation s).1

/-- A manual temperature-button press (current variant): the only two
mutators of `currentTemp`. -/
inductive TempOp
  | inc
  | dec
  deriving DecidableEq, Repr

/-- A sequence of increase/decrease presses applied to the recorder
state, each press being the corresponding current-variant handler. -/
def applyTempOps (unit : TempUnit) (ops : List TempOp) (s : RecorderState) : RecorderState :=
  ops.foldl
    (fun st op =>
      match op with
      | TempOp.inc => handleIncreaseTemp unit st
      | TempOp.dec => handleDecreaseTemp unit st) s

/-! ## Helper lemmas -/

lemma jsRound_mono {a b : ℚ} (h : a ≤ b) : jsRound a ≤ jsRound b := by
  exact Int.floor_le_floor (by linarith)

lemma tempStep_pos (u : TempUnit) : 0 < tempStep u := by
  cases u <;> norm_num [tempStep]

lemma appendCapped_length (l : List TemperatureDataPoint) (p : TemperatureDataPoint) :
    (appendCapped l p).length = min (l.length + 1) seriesCap := by
  unfold appendCapped jsSliceLast
  split
  · rename_i h
    simp only [List.length_drop, List.length_append, List.length_cons,
      List.length_nil] at h ⊢
    omega
  · rename_i h
    simp only [List.length_append, List.length_cons, List.length_nil] at h ⊢
    omega

lemma appendCapped_getLast? (l : List TemperatureDataPoint) (p : TemperatureDataPoint) :
    (appendCapped l p).getLast? = some p := by
  unfold appendCapped jsSliceLast
  split
  · rename_i h
    rw [List.drop_append_of_le_length
      (by simp only [List.length_append, List.length_cons, List.length_nil, seriesCap] at h ⊢
          omega)]
    simp
  · simp

lemma appendCapped_evict (l : List TemperatureDataPoint) (p : TemperatureDataPoint)
    (h : seriesCap < (l ++ [p]).length) :
    appendCapped l p = (l ++ [p]).drop ((l ++ [p]).length - seriesCap) := by
  unfold appendCapped jsSliceLast
  rw [if_pos h]

/-- Appending after a point `a` always keeps `a`'s point and the new point
as the last two entries: the cap (3600 ≥ 2) can only evict from the front. -/
lemma appendCapped_suffix (l : List TemperatureDataPoint) (a b : TemperatureDataPoint) :
    List.IsSuffix [a, b] (appendCapped (l ++ [a]) b) := by
  unfold appendCapped jsSliceLast
  have hassoc : (l ++ [a]) ++ [b] = l ++ [a, b] := by simp
  split
  · rename_i h
    rw [hassoc] at h ⊢
    simp only [List.length_append, List.length_cons, List.length_nil, seriesCap] at h ⊢
    rw [List.drop_append_of_le_length (by omega)]
    exact ⟨l.drop (l.length + (1 + 1) - 3600), rfl⟩
  · exact ⟨l, hassoc.symm⟩

lemma tickSeries_length_le (elapsed : ℤ) (temp : ℚ) (prev : List TemperatureDataPoint)
    (h : prev.length ≤ seriesCap) : (tickSeries elapsed temp prev).length ≤ seriesCap := by
  unfold tickSeries
  split
  · rw [appendCapped_length]; omega
  · exact h

/-- `getDTRColor` on `[0, 30]` agrees channel-wise with the tan → brown
interpolation (the `dtr === 0` short-circuit returns the same channels). -/
lemma getDTRColor_eq_seg1 (p : ℚ) (h30 : p ≤ 30) :
    getDTRColor p = interpolateColor tanStop brownStop (p / 30) := by
  by_cases hp : p = 0
  · subst hp
    norm_num [getDTRColor, interpolateColor, jsRound, tanStop, brownStop]
  · rw [getDTRColor, if_neg hp, if_pos h30]

/-- `getDTRColor` on `[30, 100]` agrees channel-wise with the brown →
black interpolation (at exactly 30 the first branch computes the same
channels). -/
lemma getDTRColor_eq_seg2 (p : ℚ) (h30 : 30 ≤ p) :
    getDTRColor p = interpolateColor brownStop blackStop ((p - 30) / 70) := by
  rcases eq_or_lt_of_le h30 with h | h
  · rw [← h]
    norm_num [getDTRColor, interpolateColor, jsRound, tanStop, brownStop, blackStop]
  · rw [getDTRColor, if_neg (by linarith), if_neg (by linarith)]

lemma applyTempOps_nil (u : TempUnit) (s : RecorderState) : applyTempOps u [] s = s := rfl

lemma applyTempOps_cons (u : TempUnit) (op : TempOp) (rest : List TempOp)
    (s : RecorderState) :
    applyTempOps u (op :: rest) s =
      applyTempOps u rest
        (match op with
         | TempOp.inc => handleIncreaseTemp u s
         | TempOp.dec => handleDecreaseTemp u s) := rfl

lemma applyTempOps_nonneg (u : TempUnit) (ops : List TempOp) :
    ∀ s : RecorderState, 0 ≤ s.currentTemp → 0 ≤ (applyTempOps u ops s).currentTemp := by
  induction ops with
  | nil => intro s h; exact h
  | cons op rest ih =>
    intro s h
    rw [applyTempOps_cons]
    cases op
    · apply ih
      have := tempStep_pos u
      simp only [handleIncreaseTemp]
      linarith
    · apply ih
      simp only [handleDecreaseTemp]
      exact le_max_left 0 _

lemma applyTempOps_dec_zero (m : ℕ) :
    ∀ s : RecorderState, s.currentTemp = 0 →
      (applyTempOps TempUnit.C (List.replicate m TempOp.dec) s).currentTemp = 0 := by
  induction m with
  | zero => intro s h; exact h
  | succ k ih =>
    intro s h
    rw [List.replicate_succ, applyTempOps_cons]
    apply ih
    simp only [handleDecreaseTemp]
    rw [h]
    norm_num [tempStep]

/-! ## Claim C1 -/

/-- Claim C1: for `0 ≤ first_crack ≤ total` with `total > 0`,
`calculateDTR(first_crack, total)` equals `100 * (total - first_crack) / total`
and lies in `[0, 100]`; `calculateDTR(null, total) = 0` for every `total`;
and `calculateDTR(first_crack, 0) = 0` for every `first_crack`. -/
theorem calculateDTR_spec :
    (∀ fc total : ℚ, 0 ≤ fc → fc ≤ total → 0 < total →
      calculateDTR (some fc) total = 100 * (total - fc) / total ∧
      0 ≤ calculateDTR (some fc) total ∧ calculateDTR (some fc) total ≤ 100) ∧
    (∀ total : ℚ, calculateDTR none total = 0) ∧
    (∀ fc : ℚ, calculateDTR (some fc) 0 = 0) := by
  refine ⟨?_, fun total => rfl, fun fc => by simp [calculateDTR]⟩
  intro fc total h0 hle hpos
  have hne : total ≠ 0 := ne_of_gt hpos
  have hval : calculateDTR (some fc) total = (total - fc) / total * 100 := by
    simp [calculateDTR, hne]
  refine ⟨?_, ?_, ?_⟩
  · rw [hval]; ring
  · rw [hval]
    exact mul_nonneg (div_nonneg (by linarith) (le_of_lt hpos)) (by norm_num)
  · rw [hval]
    have hd : (total - fc) / total ≤ 1 := by
      rw [div_le_one hpos]; linarith
    linarith

/-- Witness for C1: the end-to-end scenario `calculateDTR(60, 300) = 80`. -/
theorem calculateDTR_spec_witness :
    calculateDTR (some 60) 300 = 100 * (300 - 60) / 300 ∧
    0 ≤ calculateDTR (some 60) 300 ∧ calculateDTR (some 60) 300 ≤ 100 :=
  calculateDTR_spec.1 60 300 (by norm_num) (by norm_num) (by norm_num)

/-! ## Claim C7 -/

/-- Claim C7 (counterexample): `getDTRColor` does NOT clamp its input to
`[0, 100]`: at `p = -30` the negative ratio `-30 / 30 = -1` extrapolates
the tan → brown segment backward, giving channels `(313, 257, 218)` rather
than the tan stop `(218, 160, 109)` produced at the clamped input `0`. -/
theorem getDTRColor_clamp_counterexample :
    getDTRColor (-30) ≠ getDTRColor (max 0 (min 100 (-30))) := by
  norm_num [getDTRColor, interpolateColor, jsRound, tanStop, brownStop, blackStop]

/-- Claim C7 (amended): the clamp identity
`getDTRColor p = getDTRColor (max 0 (min 100 p))` holds only for inputs
already in `[0, 100]`, where the clamp is the identity; out-of-range
inputs are linearly extrapolated along the segment formulas instead of
being clamped. -/
theorem getDTRColor_clamp_in_range (p : ℚ) (h0 : 0 ≤ p) (h1 : p ≤ 100) :
    getDTRColor p = getDTRColor (max 0 (min 100 p)) := by
  rw [min_eq_right h1, max_eq_right h0]

/-- Witness for the amended C7 at `p = 50`. -/
theorem getDTRColor_clamp_in_range_witness :
    getDTRColor 50 = getDTRColor (max 0 (min 100 50)) :=
  getDTRColor_clamp_in_range 50 (by norm_num) (by norm_num)

/-! ## Claim C8 -/

/-- Claim C8: `getDTRColor` hits the three stops exactly — tan at 0,
medium brown at 30, black at 100 — and between consecutive stops every
RGB channel is a monotone (here non-increasing, by rounded linear
interpolation) function of the percentage. -/
theorem getDTRColor_stops_monotone :
    getDTRColor 0 = tanStop ∧ getDTRColor 30 = brownStop ∧ getDTRColor 100 = blackStop ∧
    (∀ p q : ℚ, 0 ≤ p → p ≤ q → q ≤ 30 →
      (getDTRColor q).r ≤ (getDTRColor p).r ∧
      (getDTRColor q).g ≤ (getDTRColor p).g ∧
      (getDTRColor q).b ≤ (getDTRColor p).b) ∧
    (∀ p q : ℚ, 30 ≤ p → p ≤ q → q ≤ 100 →
      (getDTRColor q).r ≤ (getDTRColor p).r ∧
      (getDTRColor q).g ≤ (getDTRColor p).g ∧
      (getDTRColor q).b ≤ (getDTRColor p).b) := by
  refine ⟨by norm_num [getDTRColor, tanStop], ?_, ?_, ?_, ?_⟩
  · norm_num [getDTRColor, interpolateColor, jsRound, tanStop, brownStop]
  · norm_num [getDTRColor, interpolateColor, jsRound, tanStop, brownStop, blackStop]
  · intro p q h0 hpq hq30
    rw [getDTRColor_eq_seg1 p (by linarith), getDTRColor_eq_seg1 q hq30]
    simp only [interpolateColor, tanStop, brownStop]
    refine ⟨jsRound_mono (by push_cast; linarith),
            jsRound_mono (by push_cast; linarith),
            jsRound_mono (by push_cast; linarith)⟩
  · intro p q h30 hpq hq100
    rw [getDTRColor_eq_seg2 p h30, getDTRColor_eq_seg2 q (by linarith)]
    simp only [interpolateColor, brownStop, blackStop]
    refine ⟨jsRound_mono (by push_cast; linarith),
            jsRound_mono (by push_cast; linarith),
            jsRound_mono (by push_cast; linarith)⟩

/-- Witness for C8: the monotonicity conjuncts instantiated inside both
segments (10 ≤ 20 in the first segment, 40 ≤ 80 in the second). -/
theorem getDTRColor_stops_monotone_witness :
    ((getDTRColor 20).r ≤ (getDTRColor 10).r ∧
     (getDTRColor 20).g ≤ (getDTRColor 10).g ∧
     (getDTRColor 20).b ≤ (getDTRColor 10).b) ∧
    ((getDTRColor 80).r ≤ (getDTRColor 40).r ∧
     (getDTRColor 80).g ≤ (getDTRColor 40).g ∧
     (getDTRColor 80).b ≤ (getDTRColor 40).b) :=
  ⟨getDTRColor_stops_monotone.2.2.2.1 10 20 (by norm_num) (by norm_num) (by norm_num),
   getDTRColor_stops_monotone.2.2.2.2 40 80 (by norm_num) (by norm_num) (by norm_num)⟩

/-! ## Claim C2 -/

/-- Claim C2: a periodic tick whose elapsed time equals the last stored
point's time leaves the series unchanged (the `elapsed > lastTime` guard
of the current timer callback), while a manual temperature-change event
(the older variant's handler, which appends immediately while running,
with no duplicate-elapsed guard) appends the new point, so the series
then ends in both duplicate-elapsed points. -/
theorem duplicate_elapsed_append :
    (∀ (prev : List TemperatureDataPoint) (x y : ℚ),
      prev.getLast? = some { time := 5, temperature := x } →
      tickSeries 5 y prev = prev) ∧
    (∀ (data : List TemperatureDataPoint) (x ct : ℚ) (u : TempUnit),
      data.getLast? = some { time := 5, temperature := x } →
      List.IsSuffix
        [{ time := 5, temperature := x },
         { time := 5, temperature := ct + tempStep u }]
        (handleIncreaseTempOld u true 5 ct data).2) := by
  constructor
  · intro prev x y h
    simp [tickSeries, lastTime, h]
  · intro data x ct u h
    obtain ⟨l2, rfl⟩ := List.getLast?_eq_some_iff.mp h
    simpa [handleIncreaseTempOld] using
      appendCapped_suffix l2 { time := 5, temperature := x }
        { time := 5, temperature := ct + tempStep u }

/-- Witness for C2: a series ending in `(5, 19)` is unchanged by an
automatic tick at elapsed 5, and gains the duplicate point `(5, 20)`
from an older-variant manual increase at elapsed 5. -/
theorem duplicate_elapsed_append_witness :
    tickSeries 5 22
        [{ time := 0, temperature := 20 }, { time := 5, temperature := 19 }] =
      [{ time := 0, temperature := 20 }, { time := 5, temperature := 19 }] ∧
    List.IsSuffix
      [{ time := 5, temperature := 19 },
       { time := 5, temperature := 19 + tempStep TempUnit.C }]
      (handleIncreaseTempOld TempUnit.C true 5 19
        [{ time := 0, temperature := 20 }, { time := 5, temperature := 19 }]).2 :=
  ⟨duplicate_elapsed_append.1 _ 19 22 rfl,
   duplicate_elapsed_append.2 _ 19 19 TempUnit.C rfl⟩

/-! ## Claim C3 -/

/-- Claim C3: every reachable recorder state holds at most 3600 series
points; when an append would exceed the cap, the front (earliest) points
are dropped — `slice(-3600)` — and the newly appended point is always the
last element, so the newest point is never dropped. -/
theorem series_bounded :
    (∀ s : RecorderState, Reachable s → s.temperatureData.length ≤ seriesCap) ∧
    (∀ (l : List TemperatureDataPoint) (p : TemperatureDataPoint),
      seriesCap < (l ++ [p]).length →
      appendCapped l p = (l ++ [p]).drop ((l ++ [p]).length - seriesCap)) ∧
    (∀ (l : List TemperatureDataPoint) (p : TemperatureDataPoint),
      (appendCapped l p).getLast? = some p) := by
  refine ⟨?_, appendCapped_evict, appendCapped_getLast?⟩
  intro s h
  induction h with
  | freshMount ct now => simp [mountLoad, initState, seriesCap]
  | restoredMount ct now bn ct2 u src hsrc ih =>
    simpa [mountLoad, restoreSession, serializeSession] using ih
  | tick now s hs ih =>
    unfold tick
    split
    · split
      · exact tickSeries_length_le _ _ _ ih
      · exact ih
    · exact ih
  | start now s hs ih =>
    unfold handleStart
    split
    · simpa using ih
    · exact ih
  | firstCrack s hs ih =>
    unfold handleFirstCrack
    split
    · simpa using ih
    · exact ih
  | increase u s hs ih => simpa [handleIncreaseTemp] using ih
  | decrease u s hs ih => simpa [handleDecreaseTemp] using ih
  | back s hs ih => simpa [handleBackWithConfirmation] using ih

/-- Witness for C3: the freshly mounted state is within the cap; a full
3600-point series evicts exactly the front point on append; the appended
point is always last. -/
theorem series_bounded_witness :
    (mountLoad none 0 (initState 20)).temperatureData.length ≤ seriesCap ∧
    appendCapped
        (List.replicate 3600 ({ time := 0, temperature := 20 } : TemperatureDataPoint))
        { time := 1, temperature := 21 } =
      (List.replicate 3600 ({ time := 0, temperature := 20 } : TemperatureDataPoint) ++
        [({ time := 1, temperature := 21 } : TemperatureDataPoint)]).drop
        ((List.replicate 3600 ({ time := 0, temperature := 20 } : TemperatureDataPoint) ++
          [({ time := 1, temperature := 21 } : TemperatureDataPoint)]).length - seriesCap) ∧
    (appendCapped [] { time := 0, temperature := 20 }).getLast? =
      some { time := 0, temperature := 20 } :=
  ⟨series_bounded.1 _ (Reachable.freshMount 20 0),
   series_bounded.2.1 _ _
     (by simp only [List.length_append, List.length_replicate, List.length_cons,
           List.length_nil, seriesCap]
         omega),
   series_bounded.2.2 _ _⟩

/-! ## Claim C4 -/

/-- Claim C4: restoring from the blob the save effect writes for state
`s` reproduces `s`'s series, stage, elapsed seconds, current temperature
and first-crack time, with the sampling clock stopped (`isRunning =
false`, `startTime = null`) regardless of `s.isRunning`. -/
theorem restore_serialize_roundtrip (bn : String) (ct : ℚ) (u : TempUnit)
    (now : ℤ) (s s0 : RecorderState) :
    (mountLoad (some (serializeSession bn ct u s)) now s0).temperatureData =
      s.temperatureData ∧
    (mountLoad (some (serializeSession bn ct u s)) now s0).roastStage = s.roastStage ∧
    (mountLoad (some (serializeSession bn ct u s)) now s0).seconds = s.seconds ∧
    (mountLoad (some (serializeSession bn ct u s)) now s0).currentTemp = s.currentTemp ∧
    (mountLoad (some (serializeSession bn ct u s)) now s0).firstCrackTime =
      s.firstCrackTime ∧
    (mountLoad (some (serializeSession bn ct u s)) now s0).isRunning = false ∧
    (mountLoad (some (serializeSession bn ct u s)) now s0).startTime = none := by
  simp [mountLoad, restoreSession, serializeSession]

/-! ## Claim C5 -/

/-- Claim C5 (counterexample): the end handler has no stage guard —
invoked directly on the fresh `'ready'` state it mutates the state
(stage becomes `'ended'`), so "end from Ready is a no-op" fails for the
raw handler. -/
theorem end_from_ready_changes_state :
    (handleBackWithConfirmation (initState 20)).1 ≠ initState 20 := by
  intro h
  have h2 := congrArg RecorderState.roastStage h
  simp [handleBackWithConfirmation, initState] at h2

/-- Claim C5 (amended): `start` invoked in stage `Started` is a no-op and
`markFirstCrack` invoked in `Ready` or `FirstCracked` is a no-op (both via
in-handler guards); the end handler itself has no stage guard, but the
stage-dispatch button — the only caller — never dispatches end outside
`FirstCracked`: clicked in `Ready` it performs `start` instead and emits
no summary. -/
theorem stage_guards :
    (∀ (now : ℤ) (s : RecorderState), s.roastStage = RoastStage.started →
      handleStart now s = s) ∧
    (∀ s : RecorderState,
      s.roastStage = RoastStage.ready ∨ s.roastStage = RoastStage.firstCrack →
      handleFirstCrack s = s) ∧
    (∀ (now : ℤ) (s : RecorderState), s.roastStage = RoastStage.ready →
      stageButtonClick now s = (handleStart now s, none)) := by
  refine ⟨?_, ?_, ?_⟩
  · intro now s h
    simp [handleStart, h]
  · intro s h
    rcases h with h | h <;> simp [handleFirstCrack, h]
  · intro now s h
    simp [stageButtonClick, h]

/-- Witness for the amended C5 at concrete states: a started state for
the start guard, the fresh ready state for the other two parts. -/
theorem stage_guards_witness :
    handleStart 0 ({ initState 20 with roastStage := RoastStage.started } : RecorderState) =
      ({ initState 20 with roastStage := RoastStage.started } : RecorderState) ∧
    handleFirstCrack (initState 20) = initState 20 ∧
    stageButtonClick 0 (initState 20) = (handleStart 0 (initState 20), none) :=
  ⟨stage_guards.1 0 _ rfl, stage_guards.2.1 _ (Or.inl rfl), stage_guards.2.2 0 _ rfl⟩

/-! ## Claim C6 -/

/-- Claim C6: starting from any non-negative current temperature, no
sequence of increase/decrease presses drives `currentTemp` below 0 (the
decrease handler clamps with `Math.max(0, _)`), and in particular one or
more decreases from 0.5 °C at the Celsius step 1.0 give exactly 0. -/
theorem currentTemp_floor :
    (∀ (u : TempUnit) (ops : List TempOp) (s : RecorderState),
      0 ≤ s.currentTemp → 0 ≤ (applyTempOps u ops s).currentTemp) ∧
    (∀ n : ℕ, 1 ≤ n →
      (applyTempOps TempUnit.C (List.replicate n TempOp.dec)
        (initState (1 / 2))).currentTemp = 0) := by
  constructor
  · intro u ops s h
    exact applyTempOps_nonneg u ops s h
  · intro n hn
    obtain ⟨m, rfl⟩ : ∃ m, n = m + 1 := ⟨n - 1, by omega⟩
    rw [List.replicate_succ, applyTempOps_cons]
    apply applyTempOps_dec_zero
    simp only [handleDecreaseTemp, initState]
    norm_num [tempStep]

/-- Witness for C6: two decreases from 0.5 °C stay at the floor 0. -/
theorem currentTemp_floor_witness :
    0 ≤ (applyTempOps TempUnit.C [TempOp.dec, TempOp.dec]
          (initState (1 / 2))).currentTemp ∧
    (applyTempOps TempUnit.C (List.replicate 2 TempOp.dec)
        (initState (1 / 2))).currentTemp = 0 :=
  ⟨currentTemp_floor.1 TempUnit.C [TempOp.dec, TempOp.dec] (initState (1 / 2))
      (by norm_num [initState]),
   currentTemp_floor.2 2 (by norm_num)⟩

/-! ## Claim C10 -/

/-- Claim C10: a fresh session (no saved blob at mount) has exactly the
single seeded point `(0, chargeTemp)`, is already in stage `Started`, and
has the sampling clock running with the wall-clock start reference set —
no explicit start operation is needed. -/
theorem fresh_session_auto_start (t : ℚ) (now : ℤ) :
    (mountLoad none now (initState t)).temperatureData =
      [{ time := 0, temperature := t }] ∧
    (mountLoad none now (initState t)).roastStage = RoastStage.started ∧
    (mountLoad none now (initState t)).isRunning = true ∧
    (mountLoad none now (initState t)).startTime = some now := by
  simp [mountLoad, initState]

end Roasting
